import Mathlib

/-!
# Book-Alchemy: a shallow embedding of the library-catalog core

This file embeds the domain logic of the repository's two source files
(`app.py`, `data_models.py`) in Lean and verifies the claims of the
specification against it.

The embedding is a relational one: the database is a pair of lists of
rows (`DB`), each request handler becomes a function from a `DB` and the
parsed form fields (`Option String`, as `request.form.get` returns) to an
outcome and the next `DB`.  Storage commits can fail; each operation takes
one Boolean oracle per commit in the Python code (`True` = the commit
succeeds, `False` = `SQLAlchemyError` is raised and the session rolls
back).  `date.today()` is an environment input, so each date-using
operation takes `today` as a parameter.

Python `datetime.strptime(s, "%Y-%m-%d")` is modelled by `parseDate`;
SQL `lower()`/`LIKE` (reached through SQLAlchemy's `ilike`) are modelled
by `lowerChar` and `likeMatch` with the standard `%`/`_` wildcard
semantics.
-/

namespace BookAlchemy

/-! ## Calendar dates (`datetime.date`) -/

/-- A calendar date, compared lexicographically like Python's
`datetime.date`. -/
structure Date where
  year : Nat
  month : Nat
  day : Nat
deriving Repr, DecidableEq

/-- Python's `<` on `datetime.date`: lexicographic on (year, month, day). -/
def Date.lt (a b : Date) : Bool :=
  a.year < b.year ||
    (a.year == b.year &&
      (a.month < b.month || (a.month == b.month && a.day < b.day)))

/-- Day count of a month, with the Gregorian leap rule, as
`datetime.date` validates it. -/
def daysInMonth (y m : Nat) : Nat :=
  if m == 2 then
    if y % 4 == 0 && (y % 100 != 0 || y % 400 == 0) then 29 else 28
  else if m == 4 || m == 6 || m == 9 || m == 11 then 30
  else 31

/-- Split a character list on `'-'` (the separator of the `%Y-%m-%d`
format). -/
def splitDash : List Char → List (List Char)
  | [] => [[]]
  | c :: rest =>
    let r := splitDash rest
    if c == '-' then [] :: r
    else
      match r with
      | [] => [[c]]
      | x :: xs => (c :: x) :: xs

/-- All characters are ASCII digits and the list is non-empty. -/
def allDigits (l : List Char) : Bool :=
  !l.isEmpty && l.all (fun c => c.isDigit)

/-- Numeric value of a digit list. -/
def digitsToNat (l : List Char) : Nat :=
  l.foldl (fun n c => n * 10 + (c.toNat - 48)) 0

/-- The year field of `strptime`'s `%Y`: exactly four digits
(`\d\d\d\d` in CPython's `_strptime`). -/
def validYearField (ys : List Char) : Bool :=
  allDigits ys && ys.length == 4

/-- The month field of `strptime`'s `%m`
(`1[0-2]|0[1-9]|[1-9]`): one or two digits with value 1–12. -/
def validMonthField (ms : List Char) : Bool :=
  allDigits ms && ms.length ≤ 2 &&
    1 ≤ digitsToNat ms && digitsToNat ms ≤ 12

/-- The day field of `strptime`'s `%d`
(`3[01]|[12]\d|0[1-9]|[1-9]| [1-9]`): one or two digits with value
1–31, or a space followed by one non-zero digit. -/
def validDayField (ds : List Char) : Bool :=
  (allDigits ds && ds.length ≤ 2 &&
    1 ≤ digitsToNat ds && digitsToNat ds ≤ 31) ||
  (match ds with
   | [c1, c2] => c1 == ' ' && c2.isDigit && !(c2 == '0')
   | _ => false)

/-- Numeric value of a day field, handling the space-padded form. -/
def dayValue (ds : List Char) : Nat :=
  match ds with
  | [' ', c] => c.toNat - 48
  | _ => digitsToNat ds

/-- `datetime.strptime(s, "%Y-%m-%d").date()`: the string must be
exactly `Y-M-D` where the three fields match CPython's `_strptime`
regexes for `%Y`, `%m`, `%d` (digits taken as ASCII), and the resulting
triple must form a valid `datetime.date` (year 1–9999, day within the
month).  Returns `none` where Python raises `ValueError`. -/
def parseDate (s : String) : Option Date :=
  match splitDash s.data with
  | [ys, ms, ds] =>
    if validYearField ys && validMonthField ms && validDayField ds then
      let y := digitsToNat ys
      let m := digitsToNat ms
      let d := dayValue ds
      if 1 ≤ y && 1 ≤ d && d ≤ daysInMonth y m then
        some ⟨y, m, d⟩
      else none
    else none
  | _ => none

/-! ## Data model (`data_models.py`) -/

/-- A row of the `authors` table. -/
structure Author where
  author_id : Nat
  author_name : String
  birth_date : Date
  date_of_death : Option Date
deriving Repr, DecidableEq

/-- A row of the `books` table.  `publication_year` is stored exactly as
the handler passes it: the raw (possibly absent) form string. -/
structure Book where
  book_id : Nat
  isbn : String
  book_title : String
  publication_year : Option String
  author_id : Nat
deriving Repr, DecidableEq

/-- The database: the two tables in insertion order, plus the
autoincrement counters for the surrogate primary keys. -/
structure DB where
  authors : List Author
  books : List Book
  next_author_id : Nat
  next_book_id : Nat
deriving Repr, DecidableEq

/-- Python falsiness of an optional form field: `request.form.get`
returns `None` when absent, and `not s` is `True` exactly for `None` and
the empty string. -/
def blank : Option String → Bool
  | none => true
  | some s => s == ""

/-- Python's `x or None` on an optional string: coerce the empty string
(and `None`) to `None`. -/
def orNone : Option String → Option String
  | none => none
  | some s => if s == "" then none else some s

/-! ## `add_author` (app.py, POST branch) -/

/-- Outcome of the `add_author` POST handler, one constructor per
`return` with a distinct message. -/
inductive AuthorResult
  | missingField
  | duplicateAuthor
  | invalidDateFormat
  | futureBirthDate
  | deathBeforeBirth
  | futureDeathDate
  | invalidDeathDateFormat
  | databaseError
  | added
deriving Repr, DecidableEq

/-- Shared tail of `add_author`: build the `Author` object, `session.add`
it and commit (rolling back on `SQLAlchemyError`). -/
def commitAuthor (db : DB) (n : String) (birth : Date) (dod : Option Date)
    (commitOk : Bool) : AuthorResult × DB :=
  if commitOk then
    (.added,
      { db with
        authors := db.authors ++
          [⟨db.next_author_id, n, birth, dod⟩],
        next_author_id := db.next_author_id + 1 })
  else (.databaseError, db)

/-- The `add_author` POST handler.  `name`, `birthS`, `deathS` are the
form fields `name`, `birthdate`, `date_of_death`. -/
def add_author (db : DB) (today : Date) (name birthS deathS : Option String)
    (commitOk : Bool) : AuthorResult × DB :=
  if blank name || blank birthS then (.missingField, db)
  else
    let n := name.getD ""
    if db.authors.any (fun a => a.author_name == n) then (.duplicateAuthor, db)
    else
      match parseDate (birthS.getD "") with
      | none => (.invalidDateFormat, db)
      | some birth =>
        if Date.lt today birth then (.futureBirthDate, db)
        else
          if blank deathS then commitAuthor db n birth none commitOk
          else
            match parseDate (deathS.getD "") with
            | none => (.invalidDeathDateFormat, db)
            | some dod =>
              if Date.lt dod birth then (.deathBeforeBirth, db)
              else if Date.lt today dod then (.futureDeathDate, db)
              else commitAuthor db n birth (some dod) commitOk

/-! ## `add_book` (app.py, POST branch) -/

/-- Outcome of the `add_book` POST handler.  `authorNotFound` is the one
branch returned with HTTP status 400 (`return msg, 400`). -/
inductive BookResult
  | missingField
  | duplicateISBN
  | authorNotFound
  | databaseError
  | added
deriving Repr, DecidableEq

/-- The `add_book` POST handler.  `titleS`, `isbnS`, `pubS`, `authorS`
are the form fields `title`, `isbn`, `publication_year`, `author_name`;
the latter two are coerced with `or None` before use. -/
def add_book (db : DB) (titleS isbnS pubS authorS : Option String)
    (commitOk : Bool) : BookResult × DB :=
  let publication_year := orNone pubS
  let author_name := orNone authorS
  if blank titleS || blank isbnS then (.missingField, db)
  else
    let title := titleS.getD ""
    let isbn := isbnS.getD ""
    if db.books.any (fun b => b.isbn == isbn) then (.duplicateISBN, db)
    else
      match author_name.bind
          (fun n => db.authors.find? (fun a => a.author_name == n)) with
      | none => (.authorNotFound, db)
      | some author =>
        if commitOk then
          (.added,
            { db with
              books := db.books ++
                [⟨db.next_book_id, isbn, title, publication_year,
                  author.author_id⟩],
              next_book_id := db.next_book_id + 1 })
        else (.databaseError, db)

/-! ## `get_cover_url` -/

/-- `get_cover_url(isbn, size="M")`: `None` on a falsy isbn, else the
f-string URL.  A pure function — it performs no request. -/
def get_cover_url (isbn : String) (size : String := "M") : Option String :=
  if isbn == "" then none
  else some ("https://covers.openlibrary.org/b/isbn/" ++ isbn ++ "-" ++
    size ++ ".jpg")

/-! ## `delete_book` (app.py) -/

/-- Outcome of the `delete_book` handler, one constructor per flashed
message. -/
inductive DeleteResult
  | bookNotFound
  | bookDeleteError
  | bookDeleted
  | bookAndAuthorDeleted
  | authorDeleteError
deriving Repr, DecidableEq

/-- The `delete_book` handler.  `commit1Ok` is the oracle for the commit
of the Book deletion, `commit2Ok` for the (separate) commit of the Author
deletion. -/
def delete_book (db : DB) (book_id : Nat) (commit1Ok commit2Ok : Bool) :
    DeleteResult × DB :=
  match db.books.find? (fun b => b.book_id == book_id) with
  | none => (.bookNotFound, db)
  | some book =>
    if commit1Ok then
      let db1 := { db with
        books := db.books.filter (fun b => !(b.book_id == book_id)) }
      if (db1.books.filter
            (fun b => b.author_id == book.author_id)).isEmpty then
        if commit2Ok then
          (.bookAndAuthorDeleted,
            { db1 with
              authors := db1.authors.filter
                (fun a => !(a.author_id == book.author_id)) })
        else (.authorDeleteError, db1)
      else (.bookDeleted, db1)
    else (.bookDeleteError, db)

/-! ## SQL `lower()` / `LIKE` (SQLAlchemy `ilike`) and the `home` route -/

/-- SQLite's `lower()`: lowercase the 26 basic-latin upper-case letters,
leave every other character alone. -/
def lowerChar (c : Char) : Char :=
  if 65 ≤ c.toNat ∧ c.toNat ≤ 90 then Char.ofNat (c.toNat + 32) else c

/-- `lower()` over a whole string (as a character list). -/
def sqlLower (l : List Char) : List Char := l.map lowerChar

/-- The suffixes of a character list, longest first, ending with `[]`. -/
def suffixes : List Char → List (List Char)
  | [] => [[]]
  | c :: s => (c :: s) :: suffixes s

/-- SQL `LIKE` pattern matching against the whole string: `'%'` matches
any (possibly empty) sequence, `'_'` any single character, every other
pattern character itself.  There is no escape character (none is
configured in the code). -/
def likeMatch : List Char → List Char → Bool
  | [], s => s.isEmpty
  | c :: p, s =>
    if c == '%' then (suffixes s).any (fun s2 => likeMatch p s2)
    else
      match s with
      | [] => false
      | d :: s2 => (c == '_' || c == d) && likeMatch p s2

/-- SQLAlchemy's `column.ilike(pattern)` as SQLite runs it:
`lower(column) LIKE lower(pattern)`. -/
def ilikeB (field pat : String) : Bool :=
  likeMatch (sqlLower pat.data) (sqlLower field.data)

/-- The search filter of the `home` route: the join condition of
`query.join(Author)` together with the `or_` of the two `ilike` tests,
with the raw search term interpolated into the `%…%` patterns. -/
def bookMatches (db : DB) (t : String) (b : Book) : Bool :=
  db.authors.any (fun a =>
    a.author_id == b.author_id &&
      (ilikeB b.book_title ("%" ++ t ++ "%") ||
        ilikeB a.author_name ("%" ++ t ++ "%")))

/-- The rows of `books JOIN authors ON books.author_id =
authors.author_id`, as (book, author) pairs. -/
def joinPairs (db : DB) : List (Book × Author) :=
  db.books.flatMap (fun b =>
    (db.authors.filter (fun a => a.author_id == b.author_id)).map
      (fun a => (b, a)))

/-- `ORDER BY books.book_title` ascending. -/
def titleLe (b1 b2 : Book) : Prop := b1.book_title ≤ b2.book_title

instance : DecidableRel titleLe := fun b1 b2 =>
  inferInstanceAs (Decidable (b1.book_title ≤ b2.book_title))

instance : IsTotal Book titleLe := ⟨fun a b => le_total a.book_title b.book_title⟩

instance : IsTrans Book titleLe := ⟨fun _ _ _ h1 h2 => le_trans h1 h2⟩

/-- `ORDER BY authors.author_name` ascending, on joined rows. -/
def pairLe (p q : Book × Author) : Prop := p.2.author_name ≤ q.2.author_name

instance : DecidableRel pairLe := fun p q =>
  inferInstanceAs (Decidable (p.2.author_name ≤ q.2.author_name))

instance : IsTotal (Book × Author) pairLe :=
  ⟨fun p q => le_total p.2.author_name q.2.author_name⟩

instance : IsTrans (Book × Author) pairLe := ⟨fun _ _ _ h1 h2 => le_trans h1 h2⟩

/-- The `home` route's query logic: `q` then `sort` from
`request.args`; a truthy search term takes the search branch, otherwise
the two sort branches, otherwise default (insertion) order.  `ORDER BY`
is modelled as a sorted permutation (insertion sort) of the selected
rows. -/
def home (db : DB) (sort_by q : Option String) : List Book :=
  if blank q = false then
    db.books.filter (fun b => bookMatches db (q.getD "") b)
  else if sort_by = some "title" then
    List.insertionSort titleLe db.books
  else if sort_by = some "author" then
    (List.insertionSort pairLe (joinPairs db)).map Prod.fst
  else
    db.books

/-! ## Operation sequences (for the storage-wide invariants) -/

/-- One mutating request, with its environment inputs (today's date,
commit-success oracles) recorded alongside the form data. -/
inductive Op
  | addAuthor (today : Date) (name birthS deathS : Option String)
      (commitOk : Bool)
  | addBook (titleS isbnS pubS authorS : Option String) (commitOk : Bool)
  | deleteBook (book_id : Nat) (commit1Ok commit2Ok : Bool)

/-- The state transition of one request (the handler's resulting
database). -/
def applyOp (db : DB) : Op → DB
  | .addAuthor today n b d ok => (add_author db today n b d ok).2
  | .addBook t i p a ok => (add_book db t i p a ok).2
  | .deleteBook bid c1 c2 => (delete_book db bid c1 c2).2

/-- The freshly created database: both tables empty. -/
def initDB : DB := ⟨[], [], 1, 1⟩

/-- Run a sequence of requests from the fresh database. -/
def run (ops : List Op) : DB := ops.foldl applyOp initDB

/-- The isbn column of the `books` table. -/
def isbns (db : DB) : List String := db.books.map (fun b => b.isbn)

/-! ## Spec-side definitions

These two definitions follow the specification's words, not the code;
they exist to be compared with the code-derived definitions above. -/

/-- `n` occurs as a contiguous substring of `h`: some suffix of `h`
starts with `n`. -/
def hasPre : List Char → List Char → Bool
  | [], _ => true
  | _ :: _, [] => false
  | c :: n, d :: h => c == d && hasPre n h

/-- Substring occurrence, via `hasPre` over all suffixes. -/
def hasSub (n h : List Char) : Bool :=
  (suffixes h).any (fun s => hasPre n s)

/-- Spec reading of the search predicate: "matches case-insensitively
against Book title OR Author name (substring match)" — the term occurs
in the lowercased field. -/
def spec_substrCI (field term : String) : Bool :=
  hasSub (sqlLower term.data) (sqlLower field.data)

/-! ## Theorems -/

/-- C9: `get_cover_url` is a pure deterministic function of `isbn` and
`size`: every empty isbn yields `none` whatever the size; every
non-empty isbn yields exactly the Open Library URL
`https://covers.openlibrary.org/b/isbn/<isbn>-<size>.jpg`; the size
defaults to `"M"`.  (Purity and determinism are inherent: the embedding
is a function and performs no effect.) -/
theorem c9_cover_url :
    (∀ size : String, get_cover_url "" size = none) ∧
    (∀ isbn size : String, isbn ≠ "" →
      get_cover_url isbn size =
        some ("https://covers.openlibrary.org/b/isbn/" ++ isbn ++ "-" ++
          size ++ ".jpg")) ∧
    (∀ isbn : String, get_cover_url isbn = get_cover_url isbn "M") := by
  refine ⟨fun _ => rfl, fun isbn size h => ?_, fun _ => rfl⟩
  simp [get_cover_url, h]

/-- Witness for C9 at the spec's example isbn. -/
theorem c9_cover_url_witness :
    get_cover_url "" "L" = none ∧
    get_cover_url "9780451524935" "M" =
      some "https://covers.openlibrary.org/b/isbn/9780451524935-M.jpg" :=
  ⟨c9_cover_url.1 "L",
    (c9_cover_url.2.1 "9780451524935" "M" (by decide)).trans (by decide)⟩

/-- C1: deleting an existing Book (with both commits succeeding) removes
exactly that Book row; if the owning Author then has no remaining Book,
the Author's row is removed as well (no author with that id survives);
otherwise the `authors` table and the remaining Book rows are exactly as
before. -/
theorem c1_cascade_delete (db : DB) (bid : Nat) (b : Book)
    (hfind : db.books.find? (fun x => x.book_id == bid) = some b) :
    (((db.books.filter (fun x => !(x.book_id == bid))).filter
        (fun x => x.author_id == b.author_id)).isEmpty = true →
      delete_book db bid true true =
        (.bookAndAuthorDeleted,
          { db with
            books := db.books.filter (fun x => !(x.book_id == bid)),
            authors := db.authors.filter
              (fun a => !(a.author_id == b.author_id)) }) ∧
      ∀ a ∈ (delete_book db bid true true).2.authors,
        a.author_id ≠ b.author_id) ∧
    (((db.books.filter (fun x => !(x.book_id == bid))).filter
        (fun x => x.author_id == b.author_id)).isEmpty = false →
      delete_book db bid true true =
        (.bookDeleted,
          { db with
            books := db.books.filter (fun x => !(x.book_id == bid)) })) := by
  constructor
  · intro h
    have heq : delete_book db bid true true =
        (.bookAndAuthorDeleted,
          { db with
            books := db.books.filter (fun x => !(x.book_id == bid)),
            authors := db.authors.filter
              (fun a => !(a.author_id == b.author_id)) }) := by
      simp only [delete_book, hfind, if_true, h, if_pos]
    refine ⟨heq, ?_⟩
    intro a ha
    rw [heq] at ha
    have := List.of_mem_filter ha
    simpa using this
  · intro h
    simp only [delete_book, hfind, h, if_pos, if_true, Bool.false_eq_true,
      if_false]

/-- Witness for C1: a cascade delete (last book of its author) and a
non-cascade delete (author keeps another book), at concrete databases. -/
theorem c1_cascade_delete_witness :
    delete_book ⟨[⟨1, "A", ⟨1950, 1, 1⟩, none⟩],
        [⟨1, "i1", "T1", none, 1⟩], 2, 2⟩ 1 true true =
      (.bookAndAuthorDeleted, ⟨[], [], 2, 2⟩) ∧
    delete_book ⟨[⟨1, "A", ⟨1950, 1, 1⟩, none⟩],
        [⟨1, "i1", "T1", none, 1⟩, ⟨2, "i2", "T2", none, 1⟩], 2, 3⟩ 1
        true true =
      (.bookDeleted,
        ⟨[⟨1, "A", ⟨1950, 1, 1⟩, none⟩], [⟨2, "i2", "T2", none, 1⟩], 2, 3⟩) := by
  constructor
  · exact ((c1_cascade_delete
      ⟨[⟨1, "A", ⟨1950, 1, 1⟩, none⟩], [⟨1, "i1", "T1", none, 1⟩], 2, 2⟩ 1
      ⟨1, "i1", "T1", none, 1⟩ (by decide)).1 (by decide)).1.trans (by decide)
  · exact ((c1_cascade_delete
      ⟨[⟨1, "A", ⟨1950, 1, 1⟩, none⟩],
        [⟨1, "i1", "T1", none, 1⟩, ⟨2, "i2", "T2", none, 1⟩], 2, 3⟩ 1
      ⟨1, "i1", "T1", none, 1⟩ (by decide)).2 (by decide)).trans (by decide)

/-- C2: the cascading delete is two separately committed transactions.
If the Author-deleting commit fails, only that transaction rolls back: a
storage error is reported, the `books` table already lacks the deleted
Book, and the `authors` table — orphaned Author included — is exactly as
before.  If instead the first (Book-deleting) commit fails, the whole
state is untouched. -/
theorem c2_two_phase_failure (db : DB) (bid : Nat) (b : Book)
    (hfind : db.books.find? (fun x => x.book_id == bid) = some b)
    (horphan : ((db.books.filter (fun x => !(x.book_id == bid))).filter
        (fun x => x.author_id == b.author_id)).isEmpty = true) :
    delete_book db bid true false =
      (.authorDeleteError,
        { db with books := db.books.filter (fun x => !(x.book_id == bid)) }) ∧
    (delete_book db bid true false).2.authors = db.authors ∧
    ∀ c2, delete_book db bid false c2 = (.bookDeleteError, db) := by
  have heq : delete_book db bid true false =
      (.authorDeleteError,
        { db with books := db.books.filter (fun x => !(x.book_id == bid)) }) := by
    simp only [delete_book, hfind, horphan, if_pos, if_true,
      Bool.false_eq_true, if_false]
  refine ⟨heq, by rw [heq], fun c2 => ?_⟩
  simp only [delete_book, hfind, Bool.false_eq_true, if_false]

/-- Witness for C2: the author-delete commit fails after the last book
of the author was deleted and committed; the book is gone, the author
remains. -/
theorem c2_two_phase_failure_witness :
    delete_book ⟨[⟨1, "A", ⟨1950, 1, 1⟩, none⟩],
        [⟨1, "i1", "T1", none, 1⟩], 2, 2⟩ 1 true false =
      (.authorDeleteError, ⟨[⟨1, "A", ⟨1950, 1, 1⟩, none⟩], [], 2, 2⟩) := by
  exact (c2_two_phase_failure
    ⟨[⟨1, "A", ⟨1950, 1, 1⟩, none⟩], [⟨1, "i1", "T1", none, 1⟩], 2, 2⟩ 1
    ⟨1, "i1", "T1", none, 1⟩ (by decide) (by decide)).1.trans (by decide)

/-- C3: Author-creation validation is fail-fast in the code's fixed
order.  Whenever name and birth date are present, a duplicate author
name wins over a malformed birth-date string (the duplicate check runs
before parsing); and a missing name or birth date wins over every later
check. -/
theorem c3_author_validation_order :
    (∀ (db : DB) (today : Date) (name birthS deathS : Option String)
        (ok : Bool),
      blank name = false → blank birthS = false →
      db.authors.any (fun a => a.author_name == name.getD "") = true →
      parseDate (birthS.getD "") = none →
      add_author db today name birthS deathS ok = (.duplicateAuthor, db)) ∧
    (∀ (db : DB) (today : Date) (name birthS deathS : Option String)
        (ok : Bool),
      blank name = true ∨ blank birthS = true →
      add_author db today name birthS deathS ok = (.missingField, db)) := by
  constructor
  · intro db today name birthS deathS ok h1 h2 hdup _hmal
    simp [add_author, h1, h2, hdup]
  · intro db today name birthS deathS ok h
    rcases h with h | h <;> simp [add_author, h]

/-- Witness for C3: a duplicate name together with a malformed birth
date yields the duplicate-author error; an absent name yields the
missing-field error. -/
theorem c3_author_validation_order_witness :
    add_author ⟨[⟨1, "A", ⟨1950, 1, 1⟩, none⟩], [], 2, 1⟩ ⟨2024, 1, 1⟩
        (some "A") (some "not-a-date") none true =
      (.duplicateAuthor, ⟨[⟨1, "A", ⟨1950, 1, 1⟩, none⟩], [], 2, 1⟩) ∧
    add_author initDB ⟨2024, 1, 1⟩ none (some "2000-01-01") none true =
      (.missingField, initDB) :=
  ⟨c3_author_validation_order.1 ⟨[⟨1, "A", ⟨1950, 1, 1⟩, none⟩], [], 2, 1⟩
      ⟨2024, 1, 1⟩ (some "A") (some "not-a-date") none true (by decide)
      (by decide) (by decide) (by decide),
    c3_author_validation_order.2 initDB ⟨2024, 1, 1⟩ none
      (some "2000-01-01") none true (Or.inl (by decide))⟩

/-- C4 counterexample: an input whose well-formed death date
("1990-01-01") is strictly earlier than its well-formed birth date
("2000-01-01") but whose name duplicates an existing Author fails with
the duplicate-author error, not the death-before-birth error — so the
claim as universally stated is false. -/
theorem c4_death_before_birth_counterexample :
    add_author ⟨[⟨1, "A", ⟨1950, 1, 1⟩, none⟩], [], 2, 1⟩ ⟨2024, 1, 1⟩
        (some "A") (some "2000-01-01") (some "1990-01-01") true =
      (.duplicateAuthor, ⟨[⟨1, "A", ⟨1950, 1, 1⟩, none⟩], [], 2, 1⟩) ∧
    parseDate "1990-01-01" = some ⟨1990, 1, 1⟩ ∧
    parseDate "2000-01-01" = some ⟨2000, 1, 1⟩ ∧
    Date.lt ⟨1990, 1, 1⟩ ⟨2000, 1, 1⟩ = true := by decide

/-- C4 (amended): provided the earlier validations pass — name and birth
date present, name not already an existing Author's, birth date
well-formed and not in the future — an input whose well-formed death
date is strictly earlier than the birth date always fails with the
death-before-birth error, and persists nothing (the database is
unchanged), whether or not the storage commit would have succeeded. -/
theorem c4_death_before_birth (db : DB) (today : Date)
    (name birthS deathS : Option String) (ok : Bool)
    (h1 : blank name = false) (h2 : blank birthS = false)
    (hdup : db.authors.any (fun a => a.author_name == name.getD "") = false)
    (birth : Date) (hb : parseDate (birthS.getD "") = some birth)
    (hfut : Date.lt today birth = false)
    (hdS : blank deathS = false)
    (dod : Date) (hd : parseDate (deathS.getD "") = some dod)
    (hlt : Date.lt dod birth = true) :
    add_author db today name birthS deathS ok = (.deathBeforeBirth, db) := by
  simp [add_author, h1, h2, hdup, hb, hfut, hdS, hd, hlt]

/-- Witness for the amended C4. -/
theorem c4_death_before_birth_witness :
    add_author initDB ⟨2024, 1, 1⟩ (some "A") (some "2000-01-01")
        (some "1990-01-01") true = (.deathBeforeBirth, initDB) :=
  c4_death_before_birth initDB ⟨2024, 1, 1⟩ (some "A") (some "2000-01-01")
    (some "1990-01-01") true (by decide) (by decide) (by decide)
    ⟨2000, 1, 1⟩ (by decide) (by decide) (by decide) ⟨1990, 1, 1⟩
    (by decide) (by decide)

/-- C5 counterexample: an input whose author name ("Unknown") matches no
persisted Author but whose title is empty fails with the missing-field
error, not the author-not-found error — so the claim as universally
stated is false. -/
theorem c5_author_not_found_counterexample :
    add_book initDB (some "") (some "i1") none (some "Unknown") true =
      (.missingField, initDB) ∧
    initDB.authors.find? (fun a => a.author_name == "Unknown") = none := by
  decide

/-- C5 (amended): provided title and isbn are present and the isbn is
not already taken, an input whose author name resolves to no persisted
Author fails with the author-not-found error and creates no Book row
(the database is unchanged); unconditionally, every successful Book
creation appends one row whose `author_id` is that of an Author that
already existed in the pre-state; and the claim's own wording implies
the resolution hypothesis: whenever the supplied author-name string
does not exactly equal any persisted Author's name, the coerced lookup
resolves to no Author. -/
theorem c5_author_not_found (db : DB)
    (titleS isbnS pubS authorS : Option String) (ok : Bool)
    (h1 : blank titleS = false) (h2 : blank isbnS = false)
    (hdup : db.books.any (fun b => b.isbn == isbnS.getD "") = false)
    (hna : (orNone authorS).bind
        (fun n => db.authors.find? (fun a => a.author_name == n)) = none) :
    add_book db titleS isbnS pubS authorS ok = (.authorNotFound, db) ∧
    (∀ (db2 : DB) (t i p a : Option String) (ok2 : Bool) (db3 : DB),
      add_book db2 t i p a ok2 = (.added, db3) →
      ∃ au ∈ db2.authors, ∃ bk : Book,
        db3.books = db2.books ++ [bk] ∧ bk.author_id = au.author_id) ∧
    (∀ a2 : Option String,
      (∀ au ∈ db.authors, au.author_name ≠ a2.getD "") →
      (orNone a2).bind
        (fun n => db.authors.find? (fun a => a.author_name == n)) = none) := by
  refine ⟨?_, ?_, ?_⟩
  · simp [add_book, h1, h2, hdup, hna]
  · intro db2 t i p a ok2 db3 h
    simp only [add_book] at h
    split at h
    · simp at h
    · split at h
      · simp at h
      · split at h
        · simp at h
        · rename_i author hau
          split at h
          · rcases Option.bind_eq_some.mp hau with ⟨n, _, hfind⟩
            refine ⟨author, List.mem_of_find?_eq_some hfind,
              ⟨db2.next_book_id, i.getD "", t.getD "", orNone p,
                author.author_id⟩, ?_, rfl⟩
            have := (Prod.mk.injEq _ _ _ _).mp h
            rw [← this.2]
          · simp at h
  · intro a2 hno
    cases a2 with
    | none => rfl
    | some s =>
      by_cases hs : s = ""
      · simp [orNone, hs]
      · have hfind : db.authors.find?
            (fun a => a.author_name == s) = none := by
          rw [List.find?_eq_none]
          intro au hau
          simpa using hno au hau
        simp [orNone, hs, hfind]

/-- Witness for the amended C5: the spec's scenario 2 — author name
"Unknown" with no such Author — plus one successful creation. -/
theorem c5_author_not_found_witness :
    add_book ⟨[⟨1, "A", ⟨1950, 1, 1⟩, none⟩], [], 2, 1⟩ (some "1984")
        (some "i1") none (some "Unknown") true =
      (.authorNotFound, ⟨[⟨1, "A", ⟨1950, 1, 1⟩, none⟩], [], 2, 1⟩) ∧
    ∃ au ∈ (⟨[⟨1, "A", ⟨1950, 1, 1⟩, none⟩], [], 2, 1⟩ : DB).authors,
      ∃ bk : Book,
        (⟨[⟨1, "A", ⟨1950, 1, 1⟩, none⟩], [⟨1, "i1", "1984", none, 1⟩], 2,
          2⟩ : DB).books = [] ++ [bk] ∧ bk.author_id = au.author_id := by
  have h := c5_author_not_found
    ⟨[⟨1, "A", ⟨1950, 1, 1⟩, none⟩], [], 2, 1⟩ (some "1984") (some "i1")
    none (some "Unknown") true (by decide) (by decide) (by decide)
    (by decide)
  exact ⟨h.1, h.2.1 ⟨[⟨1, "A", ⟨1950, 1, 1⟩, none⟩], [], 2, 1⟩ (some "1984")
    (some "i1") none (some "A") true
    ⟨[⟨1, "A", ⟨1950, 1, 1⟩, none⟩], [⟨1, "i1", "1984", none, 1⟩], 2, 2⟩
    (by decide)⟩

/-- C10 counterexample: an input with an empty `author_name` AND an
empty title fails with the missing-field error — so "for every such
input the operation fails with the author-not-found error, never with
the missing-field error" is false as universally stated. -/
theorem c10_empty_author_counterexample :
    add_book initDB (some "") (some "i1") none (some "") true =
      (.missingField, initDB) := by decide

/-- C10 (amended): an absent or empty `author_name` is coerced to the
null value (`none`) before lookup; provided title and isbn pass their
own checks (both present, isbn not already taken), every such input
fails with the author-not-found error (the branch returned with HTTP
400) and creates no Book row; and — unconditionally — the missing-field
error arises only from an empty (or absent) title or isbn. -/
theorem c10_empty_author_not_found :
    (orNone (some "") = none ∧ orNone none = none) ∧
    (∀ (db : DB) (titleS isbnS pubS authorS : Option String) (ok : Bool),
      blank titleS = false → blank isbnS = false →
      db.books.any (fun b => b.isbn == isbnS.getD "") = false →
      blank authorS = true →
      add_book db titleS isbnS pubS authorS ok = (.authorNotFound, db)) ∧
    (∀ (db : DB) (titleS isbnS pubS authorS : Option String) (ok : Bool)
        (db2 : DB),
      add_book db titleS isbnS pubS authorS ok = (.missingField, db2) →
      blank titleS = true ∨ blank isbnS = true) := by
  refine ⟨⟨rfl, rfl⟩, ?_, ?_⟩
  · intro db titleS isbnS pubS authorS ok h1 h2 hdup ha
    have hnone : orNone authorS = none := by
      cases authorS with
      | none => rfl
      | some s =>
        simp only [blank, beq_iff_eq] at ha
        simp [orNone, ha]
    simp [add_book, h1, h2, hdup, hnone]
  · intro db titleS isbnS pubS authorS ok db2 h
    simp only [add_book] at h
    split at h
    · rename_i hcond
      simpa [Bool.or_eq_true] using hcond
    · split at h
      · simp at h
      · split at h
        · simp at h
        · split at h <;> simp at h

/-- Witness for the amended C10: empty author-name field, valid title
and isbn. -/
theorem c10_empty_author_not_found_witness :
    add_book initDB (some "1984") (some "i1") none (some "") true =
      (.authorNotFound, initDB) :=
  c10_empty_author_not_found.2.1 initDB (some "1984") (some "i1") none
    (some "") true (by decide) (by decide) (by decide) (by decide)

/-- `add_author` never touches the `books` table. -/
theorem books_add_author (db : DB) (today : Date) (n b d : Option String)
    (ok : Bool) : (add_author db today n b d ok).2.books = db.books := by
  simp only [add_author, commitAuthor]
  repeat' split <;> try rfl

/-- `add_book` either leaves the isbn column unchanged, or appends the
new isbn after checking that no persisted Book already carries it. -/
theorem isbns_add_book (db : DB) (t i p a : Option String) (ok : Bool) :
    isbns (add_book db t i p a ok).2 = isbns db ∨
    (isbns (add_book db t i p a ok).2 = isbns db ++ [i.getD ""] ∧
      db.books.any (fun b2 => b2.isbn == i.getD "") = false) := by
  simp only [add_book]
  split
  · exact Or.inl rfl
  · split
    · exact Or.inl rfl
    · rename_i hdup
      split
      · exact Or.inl rfl
      · split
        · refine Or.inr ⟨by simp [isbns], by simpa using hdup⟩
        · exact Or.inl rfl

/-- `delete_book` only ever removes rows from the `books` table. -/
theorem books_delete_sublist (db : DB) (bid : Nat) (c1 c2 : Bool) :
    List.Sublist ((delete_book db bid c1 c2).2.books) db.books := by
  simp only [delete_book]
  split
  · exact List.Sublist.refl _
  · split
    · split
      · split
        · exact List.filter_sublist _
        · exact List.filter_sublist _
      · exact List.filter_sublist _
    · exact List.Sublist.refl _

/-- Every single request preserves distinctness of the isbn column. -/
theorem nodup_isbns_applyOp (db : DB) (op : Op)
    (h : (isbns db).Nodup) : (isbns (applyOp db op)).Nodup := by
  cases op with
  | addAuthor today n b d ok =>
    show (isbns (add_author db today n b d ok).2).Nodup
    have heq : isbns (add_author db today n b d ok).2 = isbns db := by
      simp [isbns, books_add_author]
    rwa [heq]
  | addBook t i p a ok =>
    show (isbns (add_book db t i p a ok).2).Nodup
    rcases isbns_add_book db t i p a ok with heq | ⟨heq, hfresh⟩
    · rwa [heq]
    · rw [heq]
      have hmem : i.getD "" ∉ isbns db := by
        intro hm
        rcases List.mem_map.mp hm with ⟨bk, hbk, hisbn⟩
        have hall := List.any_eq_false.mp hfresh bk hbk
        simp [hisbn] at hall
      simp [List.nodup_append, h, hmem]
  | deleteBook bid c1 c2 =>
    show ((delete_book db bid c1 c2).2.books.map (fun b => b.isbn)).Nodup
    exact List.Nodup.sublist
      ((books_delete_sublist db bid c1 c2).map (fun b => b.isbn)) h

/-- C6 counterexample: an input whose isbn equals a persisted Book's
but whose title is empty fails with the missing-field error, not the
duplicate-ISBN error — so the middle part of the claim, as universally
stated, is false. -/
theorem c6_isbn_unique_counterexample :
    (∃ b ∈ (⟨[⟨1, "A", ⟨1950, 1, 1⟩, none⟩], [⟨1, "X", "T", none, 1⟩], 2,
        2⟩ : DB).books, b.isbn = "X") ∧
    add_book ⟨[⟨1, "A", ⟨1950, 1, 1⟩, none⟩], [⟨1, "X", "T", none, 1⟩], 2, 2⟩
        (some "") (some "X") none (some "A") true =
      (.missingField,
        ⟨[⟨1, "A", ⟨1950, 1, 1⟩, none⟩], [⟨1, "X", "T", none, 1⟩], 2, 2⟩) := by
  decide

/-- C6 (amended): provided title and isbn are present, a Book-creation
input whose isbn equals a persisted Book's isbn fails with the
duplicate-ISBN error and adds no row; and — as stated — after any
sequence of operations from the empty database (storage failures
included) no two persisted Books share an isbn. -/
theorem c6_isbn_unique :
    (∀ (db : DB) (t i p a : Option String) (ok : Bool),
      blank t = false → blank i = false →
      db.books.any (fun b2 => b2.isbn == i.getD "") = true →
      add_book db t i p a ok = (.duplicateISBN, db)) ∧
    (∀ ops : List Op, (isbns (run ops)).Nodup) := by
  constructor
  · intro db t i p a ok h1 h2 hdup
    simp [add_book, h1, h2, hdup]
  · intro ops
    have haux : ∀ (l : List Op) (db : DB), (isbns db).Nodup →
        (isbns (l.foldl applyOp db)).Nodup := by
      intro l
      induction l with
      | nil => intro db h; exact h
      | cons op l ih =>
        intro db h
        exact ih (applyOp db op) (nodup_isbns_applyOp db op h)
    exact haux ops initDB (by simp [isbns, initDB])

/-- Witness for the amended C6: a duplicate-isbn attempt on a concrete
database, and the invariant evaluated on a concrete run. -/
theorem c6_isbn_unique_witness :
    add_book ⟨[⟨1, "A", ⟨1950, 1, 1⟩, none⟩], [⟨1, "X", "T", none, 1⟩], 2, 2⟩
        (some "T2") (some "X") none (some "A") true =
      (.duplicateISBN,
        ⟨[⟨1, "A", ⟨1950, 1, 1⟩, none⟩], [⟨1, "X", "T", none, 1⟩], 2, 2⟩) ∧
    (isbns (run [.addAuthor ⟨2024, 1, 1⟩ (some "A") (some "1950-01-01") none
        true,
      .addBook (some "T") (some "X") none (some "A") true,
      .addBook (some "T2") (some "X") none (some "A") true])).Nodup :=
  ⟨c6_isbn_unique.1 ⟨[⟨1, "A", ⟨1950, 1, 1⟩, none⟩], [⟨1, "X", "T", none, 1⟩],
      2, 2⟩ (some "T2") (some "X") none (some "A") true (by decide)
      (by decide) (by decide),
    c6_isbn_unique.2 [.addAuthor ⟨2024, 1, 1⟩ (some "A") (some "1950-01-01")
      none true,
      .addBook (some "T") (some "X") none (some "A") true,
      .addBook (some "T2") (some "X") none (some "A") true]⟩

/-- Matching emptiness: a wildcard-free pattern can start a string only
as `hasPre` says; at the empty string both reduce to emptiness of the
pattern. -/
theorem hasPre_nil (p : List Char) : hasPre p [] = p.isEmpty := by
  cases p <;> rfl

/-- The suffix list of any string ends with the empty suffix. -/
theorem suffixes_any_isEmpty (s : List Char) :
    (suffixes s).any (fun x => x.isEmpty) = true := by
  induction s with
  | nil => rfl
  | cons c s ih => simp [suffixes, ih]

/-- The pattern `%` alone matches every string. -/
theorem likeMatch_pct_any (s : List Char) : likeMatch ['%'] s = true := by
  simpa [likeMatch] using suffixes_any_isEmpty s

/-- A wildcard-free pattern followed by `%` matches exactly the strings
the pattern starts. -/
theorem likeMatch_lit_pct :
    ∀ (p : List Char), (∀ c ∈ p, c ≠ '%' ∧ c ≠ '_') →
      ∀ s, likeMatch (p ++ ['%']) s = hasPre p s := by
  intro p
  induction p with
  | nil =>
    intro _ s
    simpa [hasPre] using likeMatch_pct_any s
  | cons c p ih =>
    intro hp s
    have hc := hp c (List.mem_cons_self c p)
    have hp2 : ∀ c2 ∈ p, c2 ≠ '%' ∧ c2 ≠ '_' :=
      fun c2 h2 => hp c2 (List.mem_cons_of_mem c h2)
    cases s with
    | nil => simp [likeMatch, hasPre, hc.1]
    | cons d s =>
      simp [likeMatch, hasPre, hc.1, beq_eq_false_iff_ne.mpr hc.2, ih hp2 s]

/-- `%p%` for wildcard-free `p` matches exactly the strings containing
`p` — the LIKE pattern the code builds coincides with substring search
when (and only when) the search term has no wildcard. -/
theorem likeMatch_pct_wrap (p : List Char)
    (hp : ∀ c ∈ p, c ≠ '%' ∧ c ≠ '_') (s : List Char) :
    likeMatch ('%' :: (p ++ ['%'])) s = hasSub p s := by
  have hf : ∀ s2, likeMatch (p ++ ['%']) s2 = hasPre p s2 :=
    likeMatch_lit_pct p hp
  simp [likeMatch, hasSub, hf]

/-- The lowercase image of an upper-case letter is a basic-latin
lower-case letter, hence not a LIKE wildcard. -/
theorem ofNat_lower_not_wild (n : Nat) (h1 : 97 ≤ n) (h2 : n ≤ 122) :
    Char.ofNat n ≠ '%' ∧ Char.ofNat n ≠ '_' := by
  interval_cases n <;> exact ⟨by decide, by decide⟩

/-- `lower()` never produces a LIKE wildcard from a non-wildcard. -/
theorem lowerChar_not_wild (c : Char) (h1 : c ≠ '%') (h2 : c ≠ '_') :
    lowerChar c ≠ '%' ∧ lowerChar c ≠ '_' := by
  unfold lowerChar
  split
  · rename_i h
    exact ofNat_lower_not_wild (c.toNat + 32) (by omega) (by omega)
  · exact ⟨h1, h2⟩

/-- For a search term without LIKE wildcards, the code's
`ilike("%term%")` test coincides with the spec's case-insensitive
substring test. -/
theorem ilikeB_wildfree (field t : String)
    (hw : ∀ c ∈ t.data, c ≠ '%' ∧ c ≠ '_') :
    ilikeB field ("%" ++ t ++ "%") = spec_substrCI field t := by
  have l1 : lowerChar '%' = '%' := by decide
  have hdata : ("%" ++ t ++ "%").data = '%' :: (t.data ++ ['%']) := by
    simp [String.data_append]
  have hlow : sqlLower ('%' :: (t.data ++ ['%'])) =
      '%' :: (sqlLower t.data ++ ['%']) := by
    simp [sqlLower, l1]
  have hw2 : ∀ c ∈ sqlLower t.data, c ≠ '%' ∧ c ≠ '_' := by
    intro c hc
    rcases List.mem_map.mp hc with ⟨c0, hc0, rfl⟩
    exact lowerChar_not_wild c0 (hw c0 hc0).1 (hw c0 hc0).2
  unfold ilikeB spec_substrCI
  rw [hdata, hlow, likeMatch_pct_wrap (sqlLower t.data) hw2]

/-- C7 counterexample: searching for the term `"%"` returns a book
whose title and author name both lack any `%` character — the LIKE
pattern built from the raw term matches everything — so "exactly those
Books whose title or Author name contains the term as a substring, and
no others" is false as stated. -/
theorem c7_search_counterexample :
    (⟨1, "i1", "abc", none, 1⟩ : Book) ∈
      home ⟨[⟨1, "xyz", ⟨1900, 1, 1⟩, none⟩], [⟨1, "i1", "abc", none, 1⟩],
        2, 2⟩ none (some "%") ∧
    spec_substrCI "abc" "%" = false ∧
    spec_substrCI "xyz" "%" = false := by decide

/-- C7 (amended): for every non-empty search term containing no SQL
LIKE wildcard (`%` or `_`), the search takes precedence over any sort
key, and the result contains exactly those Books whose title OR whose
(joined) Author's name contains the term as a case-insensitive
substring, and no others. -/
theorem c7_search_semantics (db : DB) (t : String) (ht : t ≠ "")
    (hw : ∀ c ∈ t.data, c ≠ '%' ∧ c ≠ '_') :
    (∀ s1 s2 : Option String, home db s1 (some t) = home db s2 (some t)) ∧
    (∀ (s : Option String) (b : Book),
      b ∈ home db s (some t) ↔
        b ∈ db.books ∧ ∃ a ∈ db.authors, a.author_id = b.author_id ∧
          (spec_substrCI b.book_title t = true ∨
            spec_substrCI a.author_name t = true)) := by
  have hb : blank (some t) = false := by simp [blank, ht]
  have hrw : ∀ f, ilikeB f ("%" ++ t ++ "%") = spec_substrCI f t :=
    fun f => ilikeB_wildfree f t hw
  constructor
  · intro s1 s2
    simp [home, hb]
  · intro s b
    simp only [home, hb, if_true]
    rw [List.mem_filter]
    simp [bookMatches, hrw, List.any_eq_true]

/-- Witness for the amended C7: the spec's "Orwell" search on a concrete
two-book database returns exactly the matching book. -/
theorem c7_search_semantics_witness :
    (⟨1, "i1", "1984", none, 1⟩ : Book) ∈
      home ⟨[⟨1, "George Orwell", ⟨1903, 6, 25⟩, none⟩,
          ⟨2, "Jane Austen", ⟨1775, 12, 16⟩, none⟩],
        [⟨1, "i1", "1984", none, 1⟩, ⟨2, "i2", "Emma", none, 2⟩], 3, 3⟩
        (some "title") (some "orwell") ∧
    ¬ (⟨2, "i2", "Emma", none, 2⟩ : Book) ∈
      home ⟨[⟨1, "George Orwell", ⟨1903, 6, 25⟩, none⟩,
          ⟨2, "Jane Austen", ⟨1775, 12, 16⟩, none⟩],
        [⟨1, "i1", "1984", none, 1⟩, ⟨2, "i2", "Emma", none, 2⟩], 3, 3⟩
        (some "title") (some "orwell") := by
  have h := c7_search_semantics
    ⟨[⟨1, "George Orwell", ⟨1903, 6, 25⟩, none⟩,
        ⟨2, "Jane Austen", ⟨1775, 12, 16⟩, none⟩],
      [⟨1, "i1", "1984", none, 1⟩, ⟨2, "i2", "Emma", none, 2⟩], 3, 3⟩
    "orwell" (by decide) (by decide)
  constructor
  · exact (h.2 (some "title") ⟨1, "i1", "1984", none, 1⟩).mpr
      ⟨by decide, ⟨1, "George Orwell", ⟨1903, 6, 25⟩, none⟩, by decide,
        by decide, Or.inr (by decide)⟩
  · intro hmem
    have h2 := (h.2 (some "title") ⟨2, "i2", "Emma", none, 2⟩).mp hmem
    revert h2
    decide

/-- The Author name a Book row displays: the (unique) matching row of
the `authors` table, empty if none matches. -/
def authorNameOf (db : DB) (b : Book) : String :=
  match db.authors.find? (fun a => a.author_id == b.author_id) with
  | some a => a.author_name
  | none => ""

/-- When a filter keeps exactly one element, `find?` returns it. -/
theorem find?_of_filter_eq_singleton {α : Type} {p : α → Bool} :
    ∀ {l : List α} {a : α}, l.filter p = [a] → l.find? p = some a := by
  intro l
  induction l with
  | nil => intro a h; simp at h
  | cons x xs ih =>
    intro a h
    by_cases hx : p x = true
    · rw [List.filter_cons_of_pos hx] at h
      have hxa : x = a := (List.cons_eq_cons.mp h).1
      rw [List.find?_cons_of_pos _ hx, hxa]
    · rw [List.filter_cons_of_neg (by simpa using hx)] at h
      rw [List.find?_cons_of_neg _ (by simpa using hx)]
      exact ih h

/-- Under per-book uniqueness of the joined Author row, projecting the
join on its Book component gives back the `books` table in order. -/
theorem flatMap_pairs_fst (db : DB) :
    ∀ l : List Book,
      (∀ b ∈ l,
        (db.authors.filter (fun a => a.author_id == b.author_id)).length
          = 1) →
      (l.flatMap (fun b =>
        (db.authors.filter (fun a => a.author_id == b.author_id)).map
          (fun a => (b, a)))).map Prod.fst = l := by
  intro l
  induction l with
  | nil => intro _; rfl
  | cons b l ih =>
    intro h
    rcases List.length_eq_one.mp (h b (List.mem_cons_self b l)) with ⟨a, ha⟩
    simp only [List.flatMap_cons, List.map_append, ha, List.map_cons,
      List.map_nil]
    rw [ih (fun b2 h2 => h b2 (List.mem_cons_of_mem b h2))]
    rfl

/-- Same fact, phrased on `joinPairs`. -/
theorem joinPairs_map_fst (db : DB)
    (h : ∀ b ∈ db.books,
      (db.authors.filter (fun a => a.author_id == b.author_id)).length = 1) :
    (joinPairs db).map Prod.fst = db.books :=
  flatMap_pairs_fst db db.books h

/-- Each joined row pairs a persisted Book with the Author row its
displayed name comes from. -/
theorem mem_joinPairs_name (db : DB) (x : Book × Author)
    (h : ∀ b ∈ db.books,
      (db.authors.filter (fun a => a.author_id == b.author_id)).length = 1)
    (hx : x ∈ joinPairs db) :
    x.1 ∈ db.books ∧ authorNameOf db x.1 = x.2.author_name := by
  rcases List.mem_flatMap.mp hx with ⟨b, hb, hmem⟩
  rcases List.mem_map.mp hmem with ⟨a, ha, hba⟩
  subst hba
  refine ⟨hb, ?_⟩
  rcases List.length_eq_one.mp (h b hb) with ⟨a0, ha0⟩
  have haa : a ∈ [a0] := ha0 ▸ ha
  simp only [List.mem_singleton] at haa
  subst haa
  unfold authorNameOf
  rw [find?_of_filter_eq_singleton ha0]

/-- C8: with no search term, `sort = title` returns all Books sorted
ascending by title; `sort = author` returns all Books sorted ascending
by their (joined) Author's name; any other or absent sort key returns
the `books` table in storage order.  The per-book hypothesis — exactly
one Author row matches each Book's `author_id` — is the referential
integrity plus primary-key uniqueness that every reachable database
satisfies. -/
theorem c8_sort_semantics (db : DB)
    (h : ∀ b ∈ db.books,
      (db.authors.filter (fun a => a.author_id == b.author_id)).length = 1) :
    ((home db (some "title") none).Perm db.books ∧
      (home db (some "title") none).Pairwise titleLe) ∧
    ((home db (some "author") none).Perm db.books ∧
      (home db (some "author") none).Pairwise
        (fun b1 b2 => authorNameOf db b1 ≤ authorNameOf db b2)) ∧
    (∀ s : Option String, s ≠ some "title" → s ≠ some "author" →
      home db s none = db.books) := by
  have hhome_t : home db (some "title") none =
      List.insertionSort titleLe db.books := by
    simp [home, blank]
  have hhome_a : home db (some "author") none =
      (List.insertionSort pairLe (joinPairs db)).map Prod.fst := by
    simp [home, blank]
  refine ⟨⟨?_, ?_⟩, ⟨?_, ?_⟩, ?_⟩
  · rw [hhome_t]
    exact List.perm_insertionSort titleLe db.books
  · rw [hhome_t]
    exact List.sorted_insertionSort titleLe db.books
  · rw [hhome_a]
    have hperm := (List.perm_insertionSort pairLe (joinPairs db)).map
      (@Prod.fst Book Author)
    rwa [joinPairs_map_fst db h] at hperm
  · rw [hhome_a]
    have hs := List.sorted_insertionSort pairLe (joinPairs db)
    rw [List.pairwise_map]
    refine List.Pairwise.imp_of_mem ?_ hs
    intro x y hx hy hxy
    have hx2 := mem_joinPairs_name db x h ((List.mem_insertionSort pairLe).mp hx)
    have hy2 := mem_joinPairs_name db y h ((List.mem_insertionSort pairLe).mp hy)
    rw [hx2.2, hy2.2]
    exact hxy
  · intro s h1 h2
    simp [home, blank, h1, h2]

/-- Witness for C8 on a concrete two-book database: title sort is a
permutation of the table, unknown sort keys return storage order. -/
theorem c8_sort_semantics_witness :
    (home ⟨[⟨1, "A", ⟨1950, 1, 1⟩, none⟩],
        [⟨1, "i1", "T", none, 1⟩, ⟨2, "i2", "S", none, 1⟩], 2, 3⟩
      (some "title") none).Perm
      [⟨1, "i1", "T", none, 1⟩, ⟨2, "i2", "S", none, 1⟩] ∧
    home ⟨[⟨1, "A", ⟨1950, 1, 1⟩, none⟩],
        [⟨1, "i1", "T", none, 1⟩, ⟨2, "i2", "S", none, 1⟩], 2, 3⟩
      (some "year") none =
      [⟨1, "i1", "T", none, 1⟩, ⟨2, "i2", "S", none, 1⟩] :=
  ⟨(c8_sort_semantics ⟨[⟨1, "A", ⟨1950, 1, 1⟩, none⟩],
      [⟨1, "i1", "T", none, 1⟩, ⟨2, "i2", "S", none, 1⟩], 2, 3⟩
      (by decide)).1.1,
    (c8_sort_semantics ⟨[⟨1, "A", ⟨1950, 1, 1⟩, none⟩],
      [⟨1, "i1", "T", none, 1⟩, ⟨2, "i2", "S", none, 1⟩], 2, 3⟩
      (by decide)).2.2 (some "year") (by decide) (by decide)⟩

end BookAlchemy
